import Mathlib

/-!
# Verification of the pensivePy caching / merge / archival core

Shallow embedding of `src/lib/FDSNtools.py` and `src/lib/wrappers.py`.

Modelling conventions:
* Timestamps (ObsPy `UTCDateTime`) are absolute seconds, as `ℕ` for the cache
  filename helpers and `ℤ` for the day-loop pointers (which subtract 3600).
* A waveform trace (`obspy.core.Trace`) is a channel id, a sampling rate
  (`ℚ`, since the repair heuristic takes a mean), a start position on a
  discrete sample grid, and its sample values.  A stream
  (`obspy.core.Stream`) is a list of traces.
* `Stream.merge(fill_value=0, method=1)` is modelled by `streamMerge`: it
  groups traces by id; it fails (raises) iff two traces that share an id
  have different sampling rates (the failure mode the repository's repair
  code is written for); a merged group spans from the least start to the
  greatest end, positions covered by some input take the value of the last
  covering trace in the list (method=1, later data wins), and positions
  covered by no input are filled with 0 (`fill_value=0`).
* Filesystem and network effects are an explicit environment: whether the
  cache file exists, what it holds, and what the remote FDSN collaborator
  answers per query.  Remote invocations are recorded in the result so that
  call counts are provable.
* A Python exception that the repository code does not catch is an
  `Except.error` / explicit error value (`PyErr`).
-/

namespace PensivePy

/-- Python exceptions that the embedded code can raise and does not catch. -/
inductive PyErr where
  | indexError
  | nameError
  deriving DecidableEq

/-- Stats of an ObsPy trace; only the field the embedded code touches. -/
structure TraceStats where
  sampling_rate : ℚ
  deriving DecidableEq

/-- One waveform segment (`obspy.core.Trace`): channel id `tid`
(network.station.location.channel), stats, start position on the sample
grid, and sample values (`npts = tdata.length`). -/
structure Trace where
  tid : String
  stats : TraceStats
  tstart : ℕ
  tdata : List ℤ
  deriving DecidableEq

/-- `obspy.core.Stream`: a list of traces. -/
abbrev Stream := List Trace

/-- Does trace `tr` hold a sample at grid position `p`? -/
def tcover (tr : Trace) (p : ℕ) : Bool :=
  decide (tr.tstart ≤ p) && decide (p < tr.tstart + tr.tdata.length)

/-- Value at position `p` when merging `trs` (method=1): the last trace in
the list covering `p` wins; positions covered by no trace are 0
(`fill_value=0`). -/
def valueAt (trs : List Trace) (p : ℕ) : ℤ :=
  (trs.foldl
    (fun acc tr => if tcover tr p then some (tr.tdata.getD (p - tr.tstart) 0) else acc)
    none).getD 0

/-- Merge one nonempty same-id group of traces into a single trace spanning
from the least start to the greatest end, gap-filled with 0. -/
def mergeGroup (tr0 : Trace) (rest : List Trace) : Trace :=
  let lo := (rest.map Trace.tstart).foldl Nat.min tr0.tstart
  let hi := (rest.map (fun u => u.tstart + u.tdata.length)).foldl Nat.max
      (tr0.tstart + tr0.tdata.length)
  { tid := tr0.tid, stats := tr0.stats, tstart := lo,
    tdata := (List.range (hi - lo)).map (fun k => valueAt (tr0 :: rest) (lo + k)) }

/-- `Stream.merge` succeeds iff all traces sharing an id agree on the
sampling rate (the inconsistency that makes ObsPy's merge raise). -/
def ratesConsistent (st : Stream) : Bool :=
  st.all (fun tr => st.all (fun u =>
    decide (u.tid = tr.tid → u.stats.sampling_rate = tr.stats.sampling_rate)))

/-- The distinct channel ids of a stream, in order of first appearance. -/
def idsOf : Stream → List String
  | [] => []
  | tr :: rest => tr.tid :: (idsOf rest).filter (fun g => g ≠ tr.tid)

/-- The merged stream: one trace per id (defined on any stream; `streamMerge`
only exposes it when `ratesConsistent` holds). -/
def mergeAll (st : Stream) : Stream :=
  (idsOf st).filterMap (fun g =>
    match st.filter (fun u => u.tid == g) with
    | [] => none
    | tr0 :: rest => some (mergeGroup tr0 rest))

/-- `st.merge(fill_value=0, method=1)`: raises (`error`) on inconsistent
same-id sampling rates, else merges per id. -/
def streamMerge (st : Stream) : Except Unit Stream :=
  if ratesConsistent st then .ok (mergeAll st) else .error ()

/-- `np.nanmean` of a list of rates.  (On `[]` numpy yields NaN; here
division by zero yields 0 — no theorem below relies on that value.) -/
def nanmean (rs : List ℚ) : ℚ := rs.sum / rs.length

/-- `for tr2 in s: tr2.stats.sampling_rate = fsamp`. -/
def setRates (st : Stream) (fsamp : ℚ) : Stream :=
  st.map (fun tr => { tr with stats := { sampling_rate := fsamp } })

/-- The repair-and-retry of the source (`FDSNtools.py` lines 110-115 /
126-131): set every trace's rate to the nanmean of the rates of the stream
the comprehension iterates, then re-merge.  After `setRates` all rates are
equal, so the retried merge cannot fail; `mergeAll` is that merge. -/
def remergeRepaired (this_st : Stream) : Stream :=
  mergeAll (setRates this_st (nanmean (this_st.map (fun tr => tr.stats.sampling_rate))))

/-! ## Cache Key Builder (`_get_stationXML_filename`, `_get_MSEED_filename`)

A filename is modelled by the information the format string
`'%s_%s_%.4f_%.4f_%.2f.SML'` / `'%s_%s_%s_%s.MSEED'` renders: the two
`strftime('%Y%m%d%H%M')` fields determine and are determined by the
minute-truncated timestamps (`t / 60`), and `%.4f` / `%.2f` determine and
are determined by the value rounded to 4 / 2 decimals (`round (x * 10^k)`).
The rendering of these components into the underscore-separated string is
injective (components contain no separator and the date fields are fixed
width), so filename equality is component-wise equality. -/

/-- `round(x, 4 decimals)` as the integer `round (x * 10000)`. -/
def round4 (x : ℚ) : ℤ := round (x * 10000)

/-- `round(x, 2 decimals)` as the integer `round (x * 100)`. -/
def round2 (x : ℚ) : ℤ := round (x * 100)

/-- The components of a stationXML cache filename. -/
structure SMLName where
  startMin : ℕ
  endMin : ℕ
  lat4 : ℤ
  lon4 : ℤ
  rad2 : ℤ
  deriving DecidableEq

/-- `_get_stationXML_filename` (the `_make_cache_dir` side effect is out of
scope of the filename claims). -/
def get_stationXML_filename (startt endt : ℕ) (centerlat centerlon searchRadiusDeg : ℚ) :
    SMLName :=
  ⟨startt / 60, endt / 60, round4 centerlat, round4 centerlon, round2 searchRadiusDeg⟩

/-- The components of an MSEED cache filename: minute-truncated range and
the first and last trace id of the request list. -/
structure MSEEDName where
  startMin : ℕ
  endMin : ℕ
  firstId : String
  lastId : String
  deriving DecidableEq

/-- `_get_MSEED_filename`: reads `trace_ids[0]` and `trace_ids[-1]`, so an
empty list raises an IndexError. -/
def get_MSEED_filename (startt endt : ℕ) (trace_ids : List String) :
    Except PyErr MSEEDName :=
  match trace_ids.head?, trace_ids.getLast? with
  | some a, some b => .ok ⟨startt / 60, endt / 60, a, b⟩
  | _, _ => .error .indexError

/-! ## Metadata Fetcher (`get_inventory`) -/

/-- Inventory content, abstract (the embedded code never inspects it). -/
abbrev Inventory := ℕ

/-- Environment of one `get_inventory` request: whether the cache file for
the derived key exists, what it deserializes to, and what the remote
`get_stations` call would yield (`error` = any exception). -/
structure FdsnInvEnv where
  cacheFileExists : Bool
  cachedInv : Inventory
  remoteInv : Except Unit Inventory

/-- Observable outcome of `get_inventory`: the returned value (`none` is
Python's `None`), whether the remote collaborator was invoked, and whether
the cache file was written. -/
structure InvOutcome where
  result : Option Inventory
  remoteCalled : Bool
  wroteCache : Bool
  deriving DecidableEq

/-- `get_inventory` (`FDSNtools.py` lines 34-69).  Note the source's
cache-hit branch assigns `inv = read_inventory(stationXmlFile)` and then
falls off the end of the function body — the only `return inv` is inside
the else-branch — so Python returns `None` on that path. -/
def get_inventory (env : FdsnInvEnv) (overwrite cache : Bool) : InvOutcome :=
  if env.cacheFileExists && !overwrite then
    -- inv = read_inventory(stationXmlFile); (no return statement follows)
    ⟨none, false, false⟩
  else
    match env.remoteInv with
    | .error _ => ⟨none, true, false⟩
    | .ok inv => ⟨some inv, true, cache⟩

/-! ## Waveform Fetcher (`get_stream`) -/

/-- Environment of one `get_stream` request: whether the MSEED cache file
exists, its content, and the remote `get_waveforms` answer per trace id
(`error` = the query raised). -/
structure FdsnWaveEnv where
  cacheFileExists : Bool
  cachedStream : Stream
  remote : String → Except Unit Stream

/-- Observable outcome of `get_stream`: the returned stream, the trace ids
for which the remote collaborator was queried, and whether the cache file
was written. -/
structure WaveOutcome where
  result : Stream
  remoteCalls : List String
  wroteCache : Bool
  deriving DecidableEq

/-- One pass of the `for trace_id in trace_ids` loop body
(`FDSNtools.py` lines 87-115).  The accumulator is `(st, this_st)`: the
stream built so far and the current value of the loop-local `this_st`
(which line 128 reads after the loop).  On a failed query `this_st`
becomes an empty stream and nothing is added to `st`; on a clean merge the
merged traces are appended to `st`; when the merge raises, the repair
re-merges `this_st` in place but the source never appends it to `st`. -/
def fetchStep (env : FdsnWaveEnv) (acc : Stream × Stream) (trace_id : String) :
    Stream × Stream :=
  match env.remote trace_id with
  | .error _ => (acc.1, [])
  | .ok this_st =>
    if this_st.isEmpty then (acc.1, this_st)
    else if ratesConsistent this_st then
      (acc.1 ++ mergeAll this_st, mergeAll this_st)
    else
      (acc.1, remergeRepaired this_st)

/-- The whole per-identifier loop: fold `fetchStep` from `(Stream(), ⊥)`;
`this_st` starts unbound but line 128 can only run after the loop body ran
at least once, so `[]` is a harmless initial value. -/
def fetchPhase (env : FdsnWaveEnv) (trace_ids : List String) : Stream × Stream :=
  trace_ids.foldl (fetchStep env) ([], [])

/-- The whole-collection repair after the identifier loop
(`FDSNtools.py` lines 126-131): `fsamp = np.nanmean([tr2.stats.sampling_rate
for tr2 in this_st])` — over the *last per-identifier* stream `acc.2`, not
over the accumulated `st = acc.1` — then every trace of `st` is set to
`fsamp` and the merge is retried. -/
def repairWhole (acc : Stream × Stream) : Stream :=
  mergeAll (setRates acc.1 (nanmean (acc.2.map (fun tr => tr.stats.sampling_rate))))

/-- `get_stream` (`FDSNtools.py` lines 73-136).  The filename derivation
runs first and raises on an empty id list; a cache hit with
`overwrite=False` returns the deserialized file with no remote call;
otherwise every id is queried, the accumulated stream is merged, and on a
merge failure the repair takes the nanmean of the rates of `this_st` — the
*last per-identifier* stream — not of `st` (source line 128). -/
def get_stream (env : FdsnWaveEnv) (trace_ids : List String) (startt endt : ℕ)
    (overwrite cache : Bool) : Except PyErr WaveOutcome :=
  match get_MSEED_filename startt endt trace_ids with
  | .error e => .error e
  | .ok _ =>
    if env.cacheFileExists && !overwrite then
      .ok ⟨env.cachedStream, [], false⟩
    else
      let acc := fetchPhase env trace_ids
      if acc.1.isEmpty then
        .ok ⟨acc.1, trace_ids, false⟩
      else if ratesConsistent acc.1 then
        .ok ⟨mergeAll acc.1, trace_ids, cache⟩
      else
        .ok ⟨repairWhole acc, trace_ids, cache⟩

/-! ## Day-loop wrappers (`wrappers.py`)

Each wrapper is embedded as a trace semantics: the loop emits the sequence
of external actions (Day Archive reads and writes, FDSN fetches) it
performs.  The SDS Day Archive and the FDSN collaborator are abstracted by
a `WrapperEnv` giving the archive-read return code per window and the
inventory a fetch would produce. -/

/-- External actions a wrapper performs, with the query window where one
exists.  `fdsnFallback` marks entry into the fetch-fresh-data branch. -/
inductive Event where
  | sdsRead (tstart tend : ℤ)
  | fdsnFallback
  | invFetch (tstart tend : ℤ)
  | fdsnFetch (tstart tend : ℤ)
  | sdsWrite
  | rsamWrite
  | drsWrite
  deriving DecidableEq

/-- Is an event a Day Archive read? -/
def Event.isRead : Event → Bool
  | .sdsRead _ _ => true
  | _ => false

/-- The Day Archive reads of an event trace. -/
def readsOf (evs : List Event) : List Event := evs.filter Event.isRead

/-- Environment of a day-loop wrapper run: the SDS read return code for
the window starting at a given pointer (0 = data read, non-zero =
failure), the inventory `FDSNtools.get_inventory` would yield, and the
trace ids extracted from an inventory (`InventoryTools.inventory2traceid`). -/
structure WrapperEnv where
  readCode : ℤ → ℤ
  invResult : Option Inventory
  invIds : Inventory → List String

/-- The fallback body of `FDSN_to_SDS_daily_wrapper` (`wrappers.py` lines
44-58): resolve trace ids (given list, else from `inv`, else fetch an
inventory), then fetch waveforms and write to SDS when ids are known.
Returns the emitted events and the (persistent!) `trace_ids` and `inv`
locals, which the source mutates across iterations.
`fallbackFinish` is the tail of that body (`wrappers.py` lines 53-58):
`if trace_ids:` fetch waveforms and write to SDS, else only print. -/
def fallbackFinish (startt eod : ℤ) (evs : List Event) (tids2 : List String)
    (inv2 : Option Inventory) : List Event × List String × Option Inventory :=
  if tids2.isEmpty then (evs, tids2, inv2)
  else (evs ++ [Event.fdsnFetch startt eod, Event.sdsWrite], tids2, inv2)

/-- The id-resolution head of the fallback body (`wrappers.py` lines
45-52), composed with `fallbackFinish`. -/
def fdsnSdsFallback (env : WrapperEnv) (startt eod : ℤ)
    (trace_ids : List String) (inv : Option Inventory) :
    List Event × List String × Option Inventory :=
  if trace_ids.isEmpty then
    match inv with
    | some v => fallbackFinish startt eod [] (env.invIds v) (some v)
    | none =>
      match env.invResult with
      | some v => fallbackFinish startt eod [Event.invFetch startt eod] (env.invIds v) (some v)
      | none => fallbackFinish startt eod [Event.invFetch startt eod] [] none
  else fallbackFinish startt eod [] trace_ids inv

/-- `FDSN_to_SDS_daily_wrapper` (`wrappers.py` lines 36-62): while
`startt < endt`, read the archive for `[startt, startt+86400]`; if the read
code is non-zero (truthy) or `overwrite` is set, run the fallback body;
advance `startt` by 86400 unconditionally. -/
def fdsnSdsLoop (env : WrapperEnv) (startt endt : ℤ) (overwrite : Bool)
    (trace_ids : List String) (inv : Option Inventory) : List Event :=
  if h : startt < endt then
    let eod := startt + 86400
    if env.readCode startt ≠ 0 ∨ overwrite = true then
      let fb := fdsnSdsFallback env startt eod trace_ids inv
      Event.sdsRead startt eod :: Event.fdsnFallback :: fb.1
        ++ fdsnSdsLoop env (startt + 86400) endt overwrite fb.2.1 fb.2.2
    else
      Event.sdsRead startt eod
        :: fdsnSdsLoop env (startt + 86400) endt overwrite trace_ids inv
  else []
  termination_by (endt - startt).toNat
  decreasing_by all_goals omega

/-- `SDS_to_RSAM_wrapper` (`wrappers.py` lines 96-118): while
`startt < endt`, read the archive for `[startt-3600, eod+3600]`; note the
source's condition is `if not thisSDSobj.read(...) or overwrite:` — the
body is entered when the read code is *zero* (read succeeded) or
`overwrite` is set.  The body's first statement (line 106) is
`thisRSAMobj = RSAMobj(...)`: the bare name `RSAMobj` is undefined in the
module — `wrappers.py` only has `import IceWeb`, defines no `RSAMobj` of
its own, and the sibling wrappers write `IceWeb.RSAMobj` (lines 270, 322)
— so entering the body raises an uncaught NameError and the wrapper
aborts.  The RSAM write of line 108 and the reduced-displacement branch
of lines 111-115 (guarded by `sourcelat and sourcelon and inv`, kept here
as the parameters `haveSource`/`haveInv`) are unreachable.  Returns the
events performed before the loop finished or raised, and the exception if
one was raised. -/
def sdsRsamLoop (env : WrapperEnv) (startt endt : ℤ) (overwrite : Bool)
    (haveSource haveInv : Bool) : List Event × Option PyErr :=
  if h : startt < endt then
    let eod := startt + 86400
    if env.readCode startt = 0 ∨ overwrite = true then
      -- thisRSAMobj = RSAMobj(...): NameError, uncaught
      ([Event.sdsRead (startt - 3600) (eod + 3600)], some .nameError)
    else
      let rest := sdsRsamLoop env (startt + 86400) endt overwrite haveSource haveInv
      (Event.sdsRead (startt - 3600) (eod + 3600) :: rest.1, rest.2)
  else ([], none)
  termination_by (endt - startt).toNat
  decreasing_by all_goals omega

/-! ## Spectrogram window decisions -/

/-- What happens to one spectrogram window. -/
inductive SgramAction where
  | render
  | skipShort
  | skipExisting
  deriving DecidableEq

/-- The data guard of `SDS_to_ICEWEB_wrapper`'s window loop (`wrappers.py`
line 294): `isinstance(tw_st, Stream) and len(tw_st)>0 and
tw_st[0].stats.npts>1000`. -/
def windowDataOk (tw_st : Stream) : Bool :=
  match tw_st with
  | [] => false
  | tr :: _ => decide (1000 < tr.tdata.length)

/-- One window of `SDS_to_ICEWEB_wrapper`'s spectrogram loop (`wrappers.py`
lines 293-315): windows failing the data guard are skipped (`continue`);
otherwise the window renders iff the output file does not exist or
`overwrite` is set. -/
def icewebWindowAction (tw_st : Stream) (fileExists overwrite : Bool) : SgramAction :=
  if windowDataOk tw_st then
    if !fileExists || overwrite then .render else .skipExisting
  else .skipShort

/-- One window of `SDS_to_spectrogram_wrapper` (`wrappers.py` lines
172-176): the filename reads `st[0].stats.network`, so an empty stream
raises an IndexError; there is no sample-count guard — the window renders
iff the file does not exist or `overwrite` is set. -/
def spectrogramWindowAction (st : Stream) (fileExists overwrite : Bool) :
    Except PyErr SgramAction :=
  match st with
  | [] => .error .indexError
  | _ :: _ => .ok (if !fileExists || overwrite then .render else .skipExisting)

/-! ## `SDS_to_ICEWEB_wrapper` with `inv=None` (`wrappers.py` lines 234, 317-332)

With no inventory, every iteration takes the `else` branch, whose first
statement `thisSDSobj.read(sotw, eotw, ...)` reads the locals `sotw` and
`eotw`; those are assigned only inside the `if inv:` branch (lines
288-315), which never runs when `inv` is `None`.  Python local-variable
semantics is modelled by `Option ℤ`: `none` = unassigned, and reading an
unassigned local raises (UnboundLocalError, a subclass of NameError). -/

/-- The day loop of `SDS_to_ICEWEB_wrapper` specialized to `inv=None`,
threading the locals `sotw`/`eotw` and emitting the archive actions.
Returns the actions performed before the loop finished or raised, and the
exception if one was raised. -/
def icewebNoInvLoop (sod endt : ℤ) (sotw eotw : Option ℤ) :
    List Event × Option PyErr :=
  if h : sod < endt then
    match sotw, eotw with
    | some a, some b =>
      -- read(sotw, eotw); RSAMobj(...); write(SDS_TOP); sod += 86400
      let rest := icewebNoInvLoop (sod + 86400) endt (some a) (some b)
      (Event.sdsRead a b :: Event.rsamWrite :: rest.1, rest.2)
    | _, _ => ([], some .nameError)
  else ([], none)
  termination_by (endt - sod).toNat
  decreasing_by all_goals omega

/-- Entry into `SDS_to_ICEWEB_wrapper` with `inv=None`: `sod = startt`,
and the locals `sotw`, `eotw` unassigned. -/
def icewebNoInvWrapper (startt endt : ℤ) : List Event × Option PyErr :=
  icewebNoInvLoop startt endt none none

/-! ## Concrete environments and expected traces used by the claims -/

/-- Environment exhibiting the whole-collection repair bug: the first
query returns a BHZ segment at 100 Hz; the second (a wildcard request that
matches the same channel) returns a BHZ segment at 50 Hz, so the
whole-collection merge after the identifier loop fails. -/
def envC2 : FdsnWaveEnv :=
  ⟨false, [],
   fun x =>
     if x = "NW.STA.00.BHZ" then .ok [⟨"NW.STA.00.BHZ", ⟨100⟩, 0, [1, 2]⟩]
     else if x = "NW.STA.00.BH?" then .ok [⟨"NW.STA.00.BHZ", ⟨50⟩, 2, [3]⟩]
     else .error ()⟩

/-- Wrapper environment whose archive read always fails (returns 1). -/
def envC3 : WrapperEnv := ⟨fun _ => 1, none, fun _ => []⟩

/-- The Day Archive read sequence the day loop is expected to produce for
`N` whole days from `s` (per the claim): one read per day, windows
advancing by exactly 86400 s. -/
def dailyReads (s : ℤ) : ℕ → List Event
  | 0 => []
  | n + 1 => Event.sdsRead s (s + 86400) :: dailyReads (s + 86400) n

instance exceptDecEq {ε α : Type} [DecidableEq ε] [DecidableEq α] :
    DecidableEq (Except ε α)
  | .error x, .error y => decidable_of_iff (x = y) (by simp)
  | .error _, .ok _ => isFalse (by simp)
  | .ok _, .error _ => isFalse (by simp)
  | .ok x, .ok y => decidable_of_iff (x = y) (by simp)

/-! ## Helper lemmas -/

theorem existsGetLast {α : Type} (a : α) (l : List α) :
    ∃ b, (a :: l).getLast? = some b :=
  Option.isSome_iff_exists.mp (List.getLast?_isSome.mpr (by simp))

theorem mseed_filename_defined (s e : ℕ) (a : String) (l : List String) :
    ∃ nm, get_MSEED_filename s e (a :: l) = Except.ok nm := by
  obtain ⟨b, hb⟩ := existsGetLast a l
  exact ⟨⟨s / 60, e / 60, a, b⟩, by simp [get_MSEED_filename, hb]⟩

theorem readsOf_fallbackFinish (s e : ℤ) (evs : List Event) (t : List String)
    (i : Option Inventory) :
    readsOf (fallbackFinish s e evs t i).1 = readsOf evs := by
  unfold fallbackFinish
  split
  · rfl
  · simp [readsOf, List.filter_append, Event.isRead]

theorem readsOf_fdsnSdsFallback (env : WrapperEnv) (s e : ℤ) (tids : List String)
    (inv : Option Inventory) :
    readsOf (fdsnSdsFallback env s e tids inv).1 = [] := by
  unfold fdsnSdsFallback
  split
  · cases inv with
    | some v => rw [readsOf_fallbackFinish]; rfl
    | none =>
      cases env.invResult with
      | some v => rw [readsOf_fallbackFinish]; simp [readsOf, Event.isRead]
      | none => rw [readsOf_fallbackFinish]; simp [readsOf, Event.isRead]
  · rw [readsOf_fallbackFinish]; rfl

theorem fdsnFallback_not_in_fallbackFinish (s e : ℤ) (evs : List Event)
    (t : List String) (i : Option Inventory) (h : Event.fdsnFallback ∉ evs) :
    Event.fdsnFallback ∉ (fallbackFinish s e evs t i).1 := by
  unfold fallbackFinish
  split
  · exact h
  · simp [h]

theorem fdsnFallback_not_in_fdsnSdsFallback (env : WrapperEnv) (s e : ℤ)
    (tids : List String) (inv : Option Inventory) :
    Event.fdsnFallback ∉ (fdsnSdsFallback env s e tids inv).1 := by
  unfold fdsnSdsFallback
  split
  · cases inv with
    | some v => exact fdsnFallback_not_in_fallbackFinish _ _ _ _ _ (by simp)
    | none =>
      cases env.invResult with
      | some v => exact fdsnFallback_not_in_fallbackFinish _ _ _ _ _ (by simp)
      | none => exact fdsnFallback_not_in_fallbackFinish _ _ _ _ _ (by simp)
  · exact fdsnFallback_not_in_fallbackFinish _ _ _ _ _ (by simp)

theorem fdsnSdsLoop_stop (env : WrapperEnv) (s e : ℤ) (ow : Bool)
    (tids : List String) (inv : Option Inventory) (h : e ≤ s) :
    fdsnSdsLoop env s e ow tids inv = [] := by
  rw [fdsnSdsLoop.eq_def, dif_neg (by omega)]

theorem sdsRsamLoop_stop (env : WrapperEnv) (s e : ℤ) (ow hs hi : Bool) (h : e ≤ s) :
    sdsRsamLoop env s e ow hs hi = ([], none) := by
  rw [sdsRsamLoop.eq_def, dif_neg (by omega)]

theorem fdsnSdsLoop_single (env : WrapperEnv) (s : ℤ) (ow : Bool)
    (tids : List String) (inv : Option Inventory) :
    fdsnSdsLoop env s (s + 86400) ow tids inv =
      if env.readCode s ≠ 0 ∨ ow = true then
        Event.sdsRead s (s + 86400) :: Event.fdsnFallback
          :: (fdsnSdsFallback env s (s + 86400) tids inv).1
      else [Event.sdsRead s (s + 86400)] := by
  rw [fdsnSdsLoop.eq_def, dif_pos (by omega : s < s + 86400)]
  dsimp only
  split
  · rw [fdsnSdsLoop_stop env _ _ ow _ _ (by omega), List.append_nil]
  · rw [fdsnSdsLoop_stop env _ _ ow _ _ (by omega)]

theorem sdsRsamLoop_single (env : WrapperEnv) (s : ℤ) (ow hs hi : Bool) :
    sdsRsamLoop env s (s + 86400) ow hs hi =
      if env.readCode s = 0 ∨ ow = true then
        ([Event.sdsRead (s - 3600) (s + 86400 + 3600)], some PyErr.nameError)
      else ([Event.sdsRead (s - 3600) (s + 86400 + 3600)], none) := by
  rw [sdsRsamLoop.eq_def, dif_pos (by omega : s < s + 86400)]
  dsimp only
  split
  · rfl
  · rw [sdsRsamLoop_stop env _ _ ow hs hi (by omega)]

theorem sdsRsamLoop_entry_aborts (env : WrapperEnv) (s : ℤ) (e : ℤ) (hs hi : Bool)
    (ow : Bool) (hlt : s < e) (hc : env.readCode s = 0 ∨ ow = true) :
    sdsRsamLoop env s e ow hs hi
      = ([Event.sdsRead (s - 3600) (s + 86400 + 3600)], some PyErr.nameError) := by
  rw [sdsRsamLoop.eq_def, dif_pos hlt]
  dsimp only
  rw [if_pos hc]

theorem readsOf_fdsnSdsLoop (env : WrapperEnv) (ow : Bool) (N : ℕ) :
    ∀ (s : ℤ) (tids : List String) (inv : Option Inventory),
    readsOf (fdsnSdsLoop env s (s + N * 86400) ow tids inv) = dailyReads s N := by
  induction N with
  | zero =>
    intro s tids inv
    rw [fdsnSdsLoop_stop env _ _ ow _ _ (by omega)]
    rfl
  | succ n ih =>
    intro s tids inv
    rw [fdsnSdsLoop.eq_def, dif_pos (by push_cast; omega : s < s + (↑(n + 1)) * 86400)]
    have hend : s + (↑(n + 1) : ℤ) * 86400 = (s + 86400) + (↑n : ℤ) * 86400 := by
      push_cast; ring
    split
    · rw [hend]
      simp only [readsOf, List.filter_cons, List.filter_append]
      rw [show (Event.isRead (Event.sdsRead s (s + 86400))) = true from rfl,
          show (Event.isRead Event.fdsnFallback) = false from rfl]
      simp only [if_true, if_false]
      have hfb := readsOf_fdsnSdsFallback env s (s + 86400)
      rw [show List.filter Event.isRead (fdsnSdsFallback env s (s + 86400) tids inv).1
            = readsOf (fdsnSdsFallback env s (s + 86400) tids inv).1 from rfl,
          readsOf_fdsnSdsFallback,
          show List.filter Event.isRead (fdsnSdsLoop env (s + 86400) (s + 86400 + ↑n * 86400)
            ow (fdsnSdsFallback env s (s + 86400) tids inv).2.1
            (fdsnSdsFallback env s (s + 86400) tids inv).2.2)
            = readsOf (fdsnSdsLoop env (s + 86400) (s + 86400 + ↑n * 86400)
            ow (fdsnSdsFallback env s (s + 86400) tids inv).2.1
            (fdsnSdsFallback env s (s + 86400) tids inv).2.2) from rfl,
          ih]
      rfl
    · rw [hend]
      simp only [readsOf, List.filter_cons]
      rw [show (Event.isRead (Event.sdsRead s (s + 86400))) = true from rfl]
      simp only [if_true]
      rw [show List.filter Event.isRead (fdsnSdsLoop env (s + 86400) (s + 86400 + ↑n * 86400)
            ow tids inv)
            = readsOf (fdsnSdsLoop env (s + 86400) (s + 86400 + ↑n * 86400) ow tids inv)
            from rfl,
          ih]
      rfl

theorem rsamWrite_not_in_sdsRsamLoop_aux (env : WrapperEnv) (ow hs hi : Bool) :
    ∀ (n : ℕ) (s e : ℤ), (e - s).toNat ≤ n →
    Event.rsamWrite ∉ (sdsRsamLoop env s e ow hs hi).1 := by
  intro n
  induction n with
  | zero =>
    intro s e he
    rw [sdsRsamLoop_stop env s e ow hs hi (by omega)]
    simp
  | succ m ih =>
    intro s e he
    by_cases hlt : s < e
    · rw [sdsRsamLoop.eq_def, dif_pos hlt]
      dsimp only
      split
      · simp
      · intro hmem
        rcases List.mem_cons.mp hmem with hc | hc
        · simp at hc
        · exact ih (s + 86400) e (by omega) hc
    · rw [sdsRsamLoop_stop env s e ow hs hi (by omega)]
      simp

theorem rsamWrite_not_in_sdsRsamLoop (env : WrapperEnv) (s e : ℤ) (ow hs hi : Bool) :
    Event.rsamWrite ∉ (sdsRsamLoop env s e ow hs hi).1 :=
  rsamWrite_not_in_sdsRsamLoop_aux env ow hs hi (e - s).toNat s e le_rfl

theorem dailyReads_length (s : ℤ) (N : ℕ) : (dailyReads s N).length = N := by
  induction N generalizing s with
  | zero => rfl
  | succ n ih => simp [dailyReads, ih]

/-- C10: calling `get_stream` with an empty list of channel identifiers
raises an IndexError while deriving the waveform cache filename (which
reads the first and last list elements), before any cache-file check or
remote query — the outcome is the same for every environment, so neither
the cache nor the remote collaborator is consulted; a non-empty identifier
list makes the filename derivation succeed. -/
theorem spec_c10_empty_ids_index_error (env : FdsnWaveEnv) (startt endt : ℕ)
    (overwrite cache : Bool) :
    get_MSEED_filename startt endt [] = .error .indexError
    ∧ get_stream env [] startt endt overwrite cache = .error .indexError
    ∧ ∀ (a : String) (l : List String),
        ∃ nm, get_MSEED_filename startt endt (a :: l) = .ok nm := by
  refine ⟨rfl, rfl, fun a l => mseed_filename_defined startt endt a l⟩

/-- C1: on a cache hit with `overwrite=False`, `get_stream` returns the
content deserialized from the cache file with zero remote calls; but
`get_inventory`'s cache-hit branch deserializes the file into a local and
then falls off the end of the function, so it returns `None` (with zero
remote calls) instead of the stored inventory — the code contradicts the
claim for the Metadata Fetcher. -/
theorem spec_c1_cache_hit (cs : Stream) (rem : String → Except Unit Stream)
    (ci : Inventory) (ri : Except Unit Inventory) (a : String) (l : List String)
    (s e : ℕ) (c : Bool) :
    get_stream ⟨true, cs, rem⟩ (a :: l) s e false c = .ok ⟨cs, [], false⟩
    ∧ get_inventory ⟨true, ci, ri⟩ false c = ⟨none, false, false⟩ := by
  constructor
  · obtain ⟨b, hb⟩ := existsGetLast a l
    simp [get_stream, get_MSEED_filename, hb]
  · rfl

/-- C5: with `overwrite=True` both fetchers invoke the remote collaborator
even when the cache file exists: `get_inventory` always issues the remote
query, and `get_stream` queries the remote collaborator for every id of a
non-empty request list. -/
theorem spec_c5_overwrite_forces_remote (envI : FdsnInvEnv) (envW : FdsnWaveEnv)
    (a : String) (l : List String) (s e : ℕ) (cI cW : Bool) :
    (get_inventory envI true cI).remoteCalled = true
    ∧ ∃ out, get_stream envW (a :: l) s e true cW = .ok out
        ∧ out.remoteCalls = a :: l := by
  constructor
  · unfold get_inventory
    rw [Bool.not_true, Bool.and_false, if_neg (by simp)]
    cases envI.remoteInv <;> rfl
  · obtain ⟨b, hb⟩ := existsGetLast a l
    unfold get_stream
    simp only [get_MSEED_filename, List.head?_cons, hb, Bool.not_true, Bool.and_false,
      Bool.false_eq_true, if_false]
    by_cases h1 : (fetchPhase envW (a :: l)).1.isEmpty
    · exact ⟨_, by rw [if_pos h1], rfl⟩
    · by_cases h2 : ratesConsistent (fetchPhase envW (a :: l)).1
      · exact ⟨_, by rw [if_neg h1, if_pos h2], rfl⟩
      · exact ⟨_, by rw [if_neg h1, if_neg h2], rfl⟩

/-- C7: the Cache Key Builder is deterministic (a pure function of its
inputs), and two requests whose minute-truncated time ranges, 4-decimal
rounded latitude/longitude, or 2-decimal rounded radius differ get
different stationXML cache filenames. -/
theorem spec_c7_cache_key (s1 e1 s2 e2 : ℕ) (la1 lo1 r1 la2 lo2 r2 : ℚ) :
    get_stationXML_filename s1 e1 la1 lo1 r1 = get_stationXML_filename s1 e1 la1 lo1 r1
    ∧ (s1 / 60 ≠ s2 / 60 ∨ e1 / 60 ≠ e2 / 60 ∨ round4 la1 ≠ round4 la2
        ∨ round4 lo1 ≠ round4 lo2 ∨ round2 r1 ≠ round2 r2 →
       get_stationXML_filename s1 e1 la1 lo1 r1 ≠ get_stationXML_filename s2 e2 la2 lo2 r2) := by
  refine ⟨rfl, fun hd he => ?_⟩
  rw [get_stationXML_filename, get_stationXML_filename, SMLName.mk.injEq] at he
  tauto

/-- Witness for C7 at concrete inputs: truncated to minutes, 60 s and
120 s differ, and the filenames differ. -/
theorem spec_c7_cache_key_witness :
    get_stationXML_filename 60 240 1 2 3 ≠ get_stationXML_filename 120 240 1 2 3 :=
  (spec_c7_cache_key 60 240 120 240 1 2 3 1 2 3).2 (Or.inl (by decide))

/-- C2: the per-identifier repair-and-retry behaves as claimed — repairing
two same-id segments at 100 Hz and 50 Hz does not raise, yields the mean
rate 75, and zero-fills the uncovered span (positions 2 and 3) — but the
whole-collection pass does not: on the concrete input where the
accumulated collection holds same-id segments at 100 Hz and 50 Hz (mean
75), the source's line 128 takes the nanmean over `this_st`, the *last
per-identifier fetch*, so the repaired collection comes back at 50 Hz,
not at the mean 75 of the merged segments' rates. -/
theorem spec_c2_repair_uses_last_fetch :
    remergeRepaired [⟨"X", ⟨100⟩, 0, [1, 2]⟩, ⟨"X", ⟨50⟩, 4, [7]⟩]
      = [⟨"X", ⟨75⟩, 0, [1, 2, 0, 0, 7]⟩]
    ∧ get_stream envC2 ["NW.STA.00.BHZ", "NW.STA.00.BH?"] 0 600 true false
      = .ok ⟨[⟨"NW.STA.00.BHZ", ⟨50⟩, 0, [1, 2, 3]⟩],
             ["NW.STA.00.BHZ", "NW.STA.00.BH?"], false⟩
    ∧ nanmean ((fetchPhase envC2 ["NW.STA.00.BHZ", "NW.STA.00.BH?"]).1.map
        (fun tr => tr.stats.sampling_rate)) = 75 := by
  have hfetch : fetchPhase envC2 ["NW.STA.00.BHZ", "NW.STA.00.BH?"]
      = ([⟨"NW.STA.00.BHZ", ⟨100⟩, 0, [1, 2]⟩, ⟨"NW.STA.00.BHZ", ⟨50⟩, 2, [3]⟩],
         [⟨"NW.STA.00.BHZ", ⟨50⟩, 2, [3]⟩]) := by
    decide
  refine ⟨?_, ?_, ?_⟩
  · unfold remergeRepaired
    rw [show List.map (fun tr => tr.stats.sampling_rate)
          ([⟨"X", ⟨100⟩, 0, [1, 2]⟩, ⟨"X", ⟨50⟩, 4, [7]⟩] : Stream) = [100, 50] from rfl,
        show nanmean [(100 : ℚ), 50] = 75 by norm_num [nanmean]]
    decide
  · have hmain : get_stream envC2 ["NW.STA.00.BHZ", "NW.STA.00.BH?"] 0 600 true false
        = .ok ⟨repairWhole (fetchPhase envC2 ["NW.STA.00.BHZ", "NW.STA.00.BH?"]),
               ["NW.STA.00.BHZ", "NW.STA.00.BH?"], false⟩ := rfl
    rw [hmain, hfetch]
    unfold repairWhole
    rw [show List.map (fun tr => tr.stats.sampling_rate)
          ([⟨"NW.STA.00.BHZ", ⟨50⟩, 2, [3]⟩] : Stream) = [50] from rfl,
        show nanmean [(50 : ℚ)] = 50 by norm_num [nanmean]]
    decide
  · rw [hfetch]
    norm_num [nanmean]

/-- C8 counterexample: in `SDS_to_ICEWEB_wrapper`'s spectrogram loop, a
window whose segment has exactly 1000 samples (not "fewer than 1000") with
no pre-existing output file is skipped, not rendered: the source's guard
is `tw_st[0].stats.npts>1000`. -/
theorem spec_c8_boundary_counterexample :
    icewebWindowAction [⟨"NW.STA.00.BHZ", ⟨100⟩, 0, List.replicate 1000 1⟩] false false
      ≠ SgramAction.render
    ∧ icewebWindowAction [⟨"NW.STA.00.BHZ", ⟨100⟩, 0, List.replicate 1000 1⟩] false false
      = SgramAction.skipShort := by
  have hw : windowDataOk [⟨"NW.STA.00.BHZ", ⟨100⟩, 0, List.replicate 1000 1⟩] = false := by
    simp only [windowDataOk, List.length_replicate]
    decide
  have hact : icewebWindowAction
      [⟨"NW.STA.00.BHZ", ⟨100⟩, 0, List.replicate 1000 1⟩] false false
      = SgramAction.skipShort := by
    unfold icewebWindowAction
    rw [hw]
    rfl
  exact ⟨by rw [hact]; decide, hact⟩

/-- C8 (amended): in `SDS_to_ICEWEB_wrapper`'s window loop a window
renders iff its segment is present with *more than 1000* samples and the
output file is absent or `overwrite` is set; it is skipped for data
exactly when the segment is absent or has at most 1000 samples.  In
`SDS_to_spectrogram_wrapper` there is no sample-count guard: a window
renders iff the file is absent or `overwrite` is set (and an absent
segment raises an IndexError in the filename derivation). -/
theorem spec_c8_window_skip (tw_st st2 : Stream) (fe ow : Bool) :
    (icewebWindowAction tw_st fe ow = SgramAction.render
       ↔ windowDataOk tw_st = true ∧ (fe = false ∨ ow = true))
    ∧ (icewebWindowAction tw_st fe ow = SgramAction.skipShort
       ↔ windowDataOk tw_st = false)
    ∧ (windowDataOk tw_st = true
       ↔ ∃ tr rest, tw_st = tr :: rest ∧ 1000 < tr.tdata.length)
    ∧ (spectrogramWindowAction st2 fe ow = .ok SgramAction.render
       ↔ st2 ≠ [] ∧ (fe = false ∨ ow = true)) := by
  refine ⟨?_, ?_, ?_, ?_⟩
  · unfold icewebWindowAction
    by_cases hd : windowDataOk tw_st <;> cases fe <;> cases ow <;> simp [hd]
  · unfold icewebWindowAction
    by_cases hd : windowDataOk tw_st <;> cases fe <;> cases ow <;> simp [hd]
  · cases tw_st with
    | nil => simp [windowDataOk]
    | cons tr rest => simp [windowDataOk]
  · cases st2 with
    | nil => simp [spectrogramWindowAction]
    | cons tr rest => cases fe <;> cases ow <;> simp [spectrogramWindowAction]

/-- C9: running `SDS_to_ICEWEB_wrapper` with `inv=None` on any non-empty
time range raises a NameError in the first iteration — the no-inventory
branch reads the loop locals `sotw`/`eotw` before they are ever assigned —
so the raw-RSAM-only path performs no archive action and never completes.
(Any end time strictly after `s` is `s + k + 1` for some `k : ℕ`.) -/
theorem spec_c9_noinv_nameerror (s : ℤ) (k : ℕ) :
    icewebNoInvWrapper s (s + k + 1) = ([], some PyErr.nameError) := by
  unfold icewebNoInvWrapper
  rw [icewebNoInvLoop.eq_def, dif_pos (by omega : s < s + k + 1)]

/-- C3 counterexample: with an archive read that fails (returns 1) and
`overwrite=False`, the claim says `SDS_to_RSAM_wrapper`'s iteration must
take the fallback (compute-and-write) path; the code does not — the source
condition is `if not thisSDSobj.read(...) or overwrite:`, so the iteration
emits no RSAM write and raises nothing (the body is simply not entered). -/
theorem spec_c3_rsam_polarity_counterexample :
    envC3.readCode 0 ≠ 0
    ∧ Event.rsamWrite ∉ (sdsRsamLoop envC3 0 86400 false false false).1
    ∧ (sdsRsamLoop envC3 0 86400 false false false).2 = none := by
  refine ⟨by decide, ?_, ?_⟩
  · rw [show (86400 : ℤ) = 0 + 86400 from rfl, sdsRsamLoop_single]
    rw [if_neg (by decide)]
    decide
  · rw [show (86400 : ℤ) = 0 + 86400 from rfl, sdsRsamLoop_single]
    rw [if_neg (by decide)]

/-- C3 (amended): in `FDSN_to_SDS_daily_wrapper` an iteration enters the
fallback (fetch-fresh-and-write) branch exactly when the archive read
returns non-zero or the overwrite flag is set; in `SDS_to_RSAM_wrapper`
the polarity is inverted — the source condition is
`if not thisSDSobj.read(...) or overwrite:` — so its compute-and-write
body is *entered* exactly when the archive read returns zero (success) or
the overwrite flag is set; and since that body's first statement calls the
undefined bare name `RSAMobj`, entering it raises an uncaught NameError,
so no RSAM write ever occurs on any path. -/
theorem spec_c3_branch_conditions (env : WrapperEnv) (s e : ℤ) (ow hs hi : Bool)
    (tids : List String) (inv : Option Inventory) :
    (Event.fdsnFallback ∈ fdsnSdsLoop env s (s + 86400) ow tids inv
       ↔ (env.readCode s ≠ 0 ∨ ow = true))
    ∧ ((sdsRsamLoop env s (s + 86400) ow hs hi).2 = some PyErr.nameError
       ↔ (env.readCode s = 0 ∨ ow = true))
    ∧ Event.rsamWrite ∉ (sdsRsamLoop env s e ow hs hi).1 := by
  refine ⟨?_, ?_, rsamWrite_not_in_sdsRsamLoop env s e ow hs hi⟩
  · rw [fdsnSdsLoop_single]
    by_cases hc : env.readCode s ≠ 0 ∨ ow = true
    · rw [if_pos hc]
      simp [hc]
    · rw [if_neg hc]
      simp [hc]
  · rw [sdsRsamLoop_single]
    by_cases hc : env.readCode s = 0 ∨ ow = true
    · rw [if_pos hc]
      simp [hc]
    · rw [if_neg hc]
      simp [hc]

/-- C4: `FDSN_to_SDS_daily_wrapper` behaves as claimed — over a range of
`N` whole days it reads the Day Archive exactly once per iteration, for
windows advancing by exactly 86400 s regardless of which branch ran
(`dailyReads` lists those `N` reads), and it terminates immediately when
the pointer reaches or exceeds the end time.  `SDS_to_RSAM_wrapper` does
not: with the default `overwrite=True` its body is entered in the first
iteration and its first statement names the undefined `RSAMobj`, so on
*any* range of at least one day (`s + k + 1`, spanning however many days)
the loop performs exactly one archive read and aborts with a NameError —
it never reaches `N` iterations. -/
theorem spec_c4_day_loop_iterations (env : WrapperEnv) (s : ℤ) (N k : ℕ)
    (ow hs hi : Bool) (tids : List String) (inv : Option Inventory) :
    readsOf (fdsnSdsLoop env s (s + N * 86400) ow tids inv) = dailyReads s N
    ∧ (dailyReads s N).length = N
    ∧ fdsnSdsLoop env s (s - k) ow tids inv = []
    ∧ sdsRsamLoop env s (s + k + 1) true hs hi
        = ([Event.sdsRead (s - 3600) (s + 86400 + 3600)], some PyErr.nameError)
    ∧ sdsRsamLoop env s (s - k) ow hs hi = ([], none) :=
  ⟨readsOf_fdsnSdsLoop env ow N s tids inv,
   dailyReads_length s N,
   fdsnSdsLoop_stop env s (s - k) ow tids inv (by omega),
   sdsRsamLoop_entry_aborts env s (s + k + 1) hs hi true (by omega) (Or.inr rfl),
   sdsRsamLoop_stop env s (s - k) ow hs hi (by omega)⟩

end PensivePy
